import Mathlib

/-!
Verification of the gravitas retrieval-and-enrichment pipeline.

Shallow embedding of `src/server/app.py` (the Flask endpoints `search`,
`get_node_details` and `get_summary`) and `src/server/utils.py`
(`generate_embeddings`).  External collaborators (the Gemini embedding
provider, the MongoDB vector/document/classification collections, and the
Groq structured generator) are modelled as function fields of an `Env`
record; each orchestrator returns its outcome together with a trace of the
outbound calls it made, in order.
-/

namespace Gravitas

/-- Outcome of the raw `genai.embed_content` call inside
`generate_embeddings`: a successful response whose `embedding.values` is a
list, a response whose extracted value is not a list, or a raised
exception (transport/parse error). -/
inductive ProviderOutcome where
  | ok (values : List Int)
  | notList
  | err (msg : String)
deriving DecidableEq, Repr

/-- A document as projected by the Mongo `$vectorSearch` pipelines and
point lookups in `app.py`: `_id`, `authors`, `document`, `link`,
`osdr_id`, `title` and the similarity `score`.  Embedding coordinates are
modelled as `Int` (their numeric values never matter to the claims, only
list identity/emptiness). -/
structure Doc where
  _id : String
  authors : String
  document : String
  link : String
  osdr_id : String
  title : String
  score : Int
deriving DecidableEq, Repr

/-- A Python/JSON value as it occurs in classification handling: the
stored `classification` field is a list of category labels (see
`scripts/sqlite3_to_mongo.py`), while `app.py` uses the empty dict `{}`
as the default when a title has no classification record. -/
inductive JVal where
  | dict (entries : List (String × String))
  | arr (items : List String)
deriving DecidableEq, Repr

/-- A record of the `space_research_classification` collection: keyed by
`title`, holding a `classification` value. -/
structure ClassRec where
  title : String
  classification : JVal
deriving DecidableEq, Repr

/-- One outbound call made by an endpoint, recorded in order. -/
inductive Effect where
  | embedCall (text : String)
  | vectorQuery (collection : String) (vec : List Int)
  | pointLookup (collection : String) (id : String)
  | classLookup (titles : List String)
  | generatorCall (prompt : String)
deriving DecidableEq, Repr

/-- The external world: embedding provider, vector store (`$vectorSearch`
per collection name), point lookup (`find_one` per collection name),
classification batch find (`find` with `title $in titles`, in store
order), and the structured generator. -/
structure Env where
  apiKeySet : Bool
  provider : String → ProviderOutcome
  vectorSearch : String → List Int → List Doc
  findOne : String → String → Option Doc
  classFind : List String → List ClassRec
  generate : String → String

/-- Python `str.strip()`: drop leading and trailing whitespace.  Defined
over the character list so that it computes by kernel reduction. -/
def pyStrip (s : String) : String :=
  ⟨((s.data.dropWhile Char.isWhitespace).reverse.dropWhile Char.isWhitespace).reverse⟩

/-- Model of `utils.generate_embeddings(query)`.  Blank input (`not query or not
query.strip()`) returns `[]` with no outbound call; a missing API key
raises `ValueError`; otherwise the provider is called on `query.strip()`
and any raised error or non-list response yields `[]` instead of
propagating. -/
def generate_embeddings (apiKeySet : Bool) (provider : String → ProviderOutcome)
    (query : String) : Except String (List Int) × List Effect :=
  if query = "" ∨ pyStrip query = "" then (.ok [], [])
  else if !apiKeySet then (.error "GEMINI_API_KEY not set in environment", [])
  else
    match provider (pyStrip query) with
    | .ok v => (.ok v, [.embedCall (pyStrip query)])
    | .notList => (.ok [], [.embedCall (pyStrip query)])
    | .err _ => (.ok [], [.embedCall (pyStrip query)])

/-- Result of the `/search` endpoint: 400 validation error, an unhandled
Python exception, or the JSON list of `(document, classification)`
pairs. -/
inductive SearchOutcome where
  | validationError
  | crash (msg : String)
  | results (data : List (Doc × JVal))
deriving DecidableEq, Repr

/-- The dict comprehension
`{str(item["title"]): item["classification"] for item in classifications}`
followed by `.get(t, default)`: the last record with a given title wins. -/
def classificationMap (classifications : List ClassRec) (t : String) : Option JVal :=
  (classifications.reverse.find? (fun r => r.title = t)).map (fun r => r.classification)

/-- Model of `app.search()`: validate the query, embed it, run `$vectorSearch` on
the papers collection, batch-find classifications for the returned
titles, and zip hits with classifications (default `{}`) in store
order. -/
def search (env : Env) : Option String → SearchOutcome × List Effect
  | none => (.validationError, [])
  | some q =>
    if q = "" then (.validationError, [])
    else
      match generate_embeddings env.apiKeySet env.provider q with
      | (.error m, tr) => (.crash m, tr)
      | (.ok embeddings, tr) =>
        let response := env.vectorSearch "space_biology_research_papers" embeddings
        let titles := response.map (fun d => d.title)
        let classifications := env.classFind titles
        let data := response.map (fun doc =>
          (doc, (classificationMap classifications doc.title).getD (JVal.dict [])))
        (.results data,
          tr ++ [.vectorQuery "space_biology_research_papers" embeddings,
                 .classLookup titles])

/-- Result of the `/kg_node/<doc_id>` endpoint. -/
inductive NodeOutcome where
  | validationError
  | crash (msg : String)
  | data (docs : List Doc)
deriving DecidableEq, Repr

/-- Model of `app.get_node_details(doc_id)`: route by the id's first three
characters, point-lookup the document (`None` is subscripted unchecked,
raising `TypeError`), re-embed its `document` text, `$vectorSearch` both
collections with that embedding, and concatenate papers first. -/
def get_node_details (env : Env) (doc_id : String) : NodeOutcome × List Effect :=
  if doc_id = "" then (.validationError, [])
  else
    let col := if doc_id.take 3 = "PMC" then "space_biology_research_papers"
               else "osdr_experiments"
    match env.findOne col doc_id with
    | none =>
      (.crash "TypeError: NoneType object is not subscriptable",
       [.pointLookup col doc_id])
    | some response =>
      match generate_embeddings env.apiKeySet env.provider response.document with
      | (.error m, tr) => (.crash m, .pointLookup col doc_id :: tr)
      | (.ok query_embedding, tr) =>
        let response_rp := env.vectorSearch "space_biology_research_papers" query_embedding
        let response_oe := env.vectorSearch "osdr_experiments" query_embedding
        (.data (response_rp ++ response_oe),
         .pointLookup col doc_id :: tr ++
           [.vectorQuery "space_biology_research_papers" query_embedding,
            .vectorQuery "osdr_experiments" query_embedding])

/-- Result of the `/summary` endpoint. -/
inductive SummaryOutcome where
  | validationError
  | notFound
  | summary (s : String)
deriving DecidableEq, Repr

/-- Python `str()` applied to `data.get("id")`: `None` stringifies to
`"None"`, a string stays itself. -/
def pyStr (o : Option String) : String :=
  match o with
  | none => "None"
  | some s => s

/-- The fixed analytical prompt template of `get_summary` (the Python
triple-quoted literal, leading newline and indentation included). -/
def promptTemplate : String :=
  "\n    Role and Goal: You are an expert academic research analyst. Your primary goal is to synthesize and summarize a research paper\x27s core contribution based on its provided title, abstract, and publication date.\n\n    Structure & Content Requirements:\n\n    1.  Core Contribution : State the single most important finding or argument of the paper.\n    2.  Methodology/Approach : Briefly describe the primary method, model, or approach used to conduct the research.\n    3.  Key Findings : List the most significant results or conclusions.\n    4.  Significance and Context : Explain why this paper is important to its field and how the publication date might offer historical context.\n\n    Tone and Style: The summary must be objective, formal, and strictly academic. Do not use conversational language or qualifiers unless absolutely necessary. \n\n    The summary should be 5 sentences in length.\n\n    Input Data:\n    "

/-- Model of `app.get_summary()`: `doc_id = str(data.get("id"))`, validate both
fields truthy, route by prefix, point-lookup (404 on miss), then call the
generator with `prompt + str(response["document"]) + "\n\n Query: query"`
— the literal word `query`, not the request field. -/
def get_summary (env : Env) (idField : Option String) (queryField : Option String) :
    SummaryOutcome × List Effect :=
  if pyStr idField = "" ∨ queryField = none ∨ queryField = some "" then
    (.validationError, [])
  else
    let col := if (pyStr idField).take 3 = "PMC" then "space_biology_research_papers"
               else "osdr_experiments"
    match env.findOne col (pyStr idField) with
    | none => (.notFound, [.pointLookup col (pyStr idField)])
    | some response =>
      let prompt := promptTemplate ++ response.document ++ "\n\n Query: query"
      (.summary (env.generate prompt),
       [.pointLookup col (pyStr idField), .generatorCall prompt])

/-! Concrete environments used as counterexamples and witnesses. -/

/-- A sample paper document. -/
def doc1 : Doc :=
  { _id := "PMC100", authors := "A", document := "Title: Bone Loss",
    link := "L", osdr_id := "O", title := "Bone Loss", score := 1 }

/-- Environment whose embedding provider raises on every call and whose
stores are empty. -/
def envFail : Env :=
  { apiKeySet := true
    provider := fun _ => .err "boom"
    vectorSearch := fun _ _ => []
    findOne := fun _ _ => none
    classFind := fun _ => []
    generate := fun _ => "s" }

/-- Environment whose embedding provider succeeds but whose vector store
has no matches. -/
def envNoMatch : Env :=
  { apiKeySet := true
    provider := fun _ => .ok [5]
    vectorSearch := fun _ _ => []
    findOne := fun _ _ => none
    classFind := fun _ => []
    generate := fun _ => "s" }

/-- Environment with one paper hit and no classification records. -/
def envHit : Env :=
  { apiKeySet := true
    provider := fun _ => .ok [1, 2]
    vectorSearch := fun c _ => if c = "space_biology_research_papers" then [doc1] else []
    findOne := fun _ i => if i = "PMC100" then some doc1 else none
    classFind := fun _ => []
    generate := fun _ => "s" }

/-- The collection name of the first point lookup in a trace, if any. -/
def lookupCollection : List Effect → Option String
  | [] => none
  | Effect.pointLookup c _ :: _ => some c
  | _ :: tr => lookupCollection tr

/-- With the API key set, `generate_embeddings` never raises: it returns
some `Except.ok` vector. -/
theorem generate_embeddings_ok (provider : String → ProviderOutcome) (q : String) :
    ∃ v tr, generate_embeddings true provider q = (Except.ok v, tr) := by
  unfold generate_embeddings
  by_cases hb : q = "" ∨ pyStrip q = ""
  · rw [if_pos hb]; exact ⟨[], [], rfl⟩
  · rw [if_neg hb]
    simp only [Bool.not_true, Bool.false_eq_true, if_false]
    cases hp : provider (pyStrip q) <;> simp only [hp]
    · exact ⟨_, _, rfl⟩
    · exact ⟨[], _, rfl⟩
    · exact ⟨[], _, rfl⟩

/-- Blank input short-circuits `generate_embeddings`. -/
theorem generate_embeddings_blank (key : Bool) (provider : String → ProviderOutcome)
    (q : String) (h : pyStrip q = "") :
    generate_embeddings key provider q = (Except.ok [], []) := by
  unfold generate_embeddings
  rw [if_pos (Or.inr h)]

/-- A provider exception on non-blank input yields `[]` after one call. -/
theorem generate_embeddings_err (provider : String → ProviderOutcome) (q m : String)
    (h : pyStrip q ≠ "") (hp : provider (pyStrip q) = ProviderOutcome.err m) :
    generate_embeddings true provider q = (Except.ok [], [Effect.embedCall (pyStrip q)]) := by
  unfold generate_embeddings
  rw [if_neg (by rintro (rfl | h2) <;> exact h (by first | rfl | exact h2))]
  simp only [Bool.not_true, Bool.false_eq_true, if_false, hp]

/-- On non-blank input with the key set, the embed call happens exactly
once, whatever the provider does, and the result is an `ok` vector. -/
theorem generate_embeddings_trace (provider : String → ProviderOutcome) (q : String)
    (h : pyStrip q ≠ "") :
    ∃ v, generate_embeddings true provider q =
      (Except.ok v, [Effect.embedCall (pyStrip q)]) := by
  unfold generate_embeddings
  rw [if_neg (by rintro (rfl | h2) <;> exact h (by first | rfl | exact h2))]
  simp only [Bool.not_true, Bool.false_eq_true, if_false]
  cases hp : provider (pyStrip q) <;> simp only [hp]
  · exact ⟨_, rfl⟩
  · exact ⟨[], rfl⟩
  · exact ⟨[], rfl⟩

/-- C9: for every request with an empty or missing query, `search` fails
with a `ValidationError` and makes no outbound call at all (no embedding
call, no store call: the trace is empty). -/
theorem C9_empty_query_validation (env : Env) (query : Option String)
    (h : query = none ∨ query = some "") :
    search env query = (SearchOutcome.validationError, []) := by
  rcases h with h | h <;> subst h <;> simp [search]

/-- C9 witness. -/
theorem C9_empty_query_validation_witness :
    search envFail (some "") = (SearchOutcome.validationError, []) :=
  C9_empty_query_validation envFail (some "") (Or.inr rfl)

/-- C3: `generate_embeddings` returns an empty vector for blank input
with no outbound call, and when the provider raises on non-blank input it
returns an empty vector (after one outbound call) rather than propagating
the exception. -/
theorem C3_generate_embeddings_empty (key : Bool)
    (provider : String → ProviderOutcome) (q : String) :
    (pyStrip q = "" →
      generate_embeddings key provider q = (Except.ok [], [])) ∧
    (∀ m, pyStrip q ≠ "" → key = true → provider (pyStrip q) = ProviderOutcome.err m →
      generate_embeddings key provider q = (Except.ok [], [Effect.embedCall (pyStrip q)])) := by
  constructor
  · intro h
    exact generate_embeddings_blank key provider q h
  · intro m h hkey hp
    subst hkey
    exact generate_embeddings_err provider q m h hp

/-- C3 witness. -/
theorem C3_generate_embeddings_empty_witness :
    generate_embeddings true (fun _ => ProviderOutcome.err "boom") "  " =
      (Except.ok [], []) ∧
    generate_embeddings true (fun _ => ProviderOutcome.err "boom") "spaceflight" =
      (Except.ok [], [Effect.embedCall (pyStrip "spaceflight")]) :=
  ⟨(C3_generate_embeddings_empty true (fun _ => ProviderOutcome.err "boom") "  ").1
    (by decide),
   (C3_generate_embeddings_empty true (fun _ => ProviderOutcome.err "boom") "spaceflight").2
    "boom" (by decide) rfl rfl⟩

/-- C10: for the same document id, `get_summary` is entirely independent
of the (non-empty) query context: the whole outcome and trace — in
particular the prompt handed to the structured generator — coincide,
because the code interpolates the literal text `query`, not the request
field. -/
theorem C10_summary_ignores_query_context (env : Env) (idField : Option String)
    (q1 q2 : String) (h1 : q1 ≠ "") (h2 : q2 ≠ "") :
    get_summary env idField (some q1) = get_summary env idField (some q2) := by
  by_cases hid : pyStr idField = ""
  · unfold get_summary
    rw [if_pos (Or.inl hid), if_pos (Or.inl hid)]
  · have hcond1 : ¬(pyStr idField = "" ∨ some q1 = none ∨ some q1 = some "") := by
      rintro (h | h | h)
      · exact hid h
      · exact Option.noConfusion h
      · exact h1 (Option.some.inj h)
    have hcond2 : ¬(pyStr idField = "" ∨ some q2 = none ∨ some q2 = some "") := by
      rintro (h | h | h)
      · exact hid h
      · exact Option.noConfusion h
      · exact h2 (Option.some.inj h)
    unfold get_summary
    rw [if_neg hcond1, if_neg hcond2]

/-- C10 witness. -/
theorem C10_summary_ignores_query_context_witness :
    get_summary envHit (some "PMC100") (some "bone density") =
      get_summary envHit (some "PMC100") (some "radiation") :=
  C10_summary_ignores_query_context envHit (some "PMC100")
    "bone density" "radiation" (by decide) (by decide)

/-- C4 (code bug): when the point lookup misses, `get_node_details` does
not produce a typed `DocumentNotFound`: it subscripts `None` and crashes
with an unhandled `TypeError` (after having called the store once). -/
theorem C4_missing_doc_crashes :
    get_node_details envFail "PMC999" =
      (NodeOutcome.crash "TypeError: NoneType object is not subscriptable",
       [Effect.pointLookup "space_biology_research_papers" "PMC999"]) := by
  decide

/-- C5 counterexample: a request whose `id` field is missing does not
fail with `ValidationError`: Python stringifies `None` to `"None"`, which
is truthy, so the request proceeds to a store lookup of `"None"` in the
experiments collection. -/
theorem C5_missing_id_passes_validation :
    get_summary envFail none (some "effects of microgravity") =
      (SummaryOutcome.notFound, [Effect.pointLookup "osdr_experiments" "None"]) := by
  decide

/-- C5 amended: `get_summary` fails with `ValidationError` before any
store or generator call whenever the query context is missing or empty,
or the id is the empty string; a missing id, however, is coerced to the
truthy string `"None"` and passes validation. -/
theorem C5_validation_amended (env : Env) (idField qField : Option String)
    (h : qField = none ∨ qField = some "" ∨ idField = some "") :
    get_summary env idField qField = (SummaryOutcome.validationError, []) := by
  rcases h with h | h | h <;> subst h
  · unfold get_summary
    rw [if_pos (Or.inr (Or.inl rfl))]
  · unfold get_summary
    rw [if_pos (Or.inr (Or.inr rfl))]
  · unfold get_summary
    rw [if_pos (Or.inl (show pyStr (some "") = "" from rfl))]

/-- C5 amended witness. -/
theorem C5_validation_amended_witness :
    get_summary envFail (some "PMC100") none = (SummaryOutcome.validationError, []) :=
  C5_validation_amended envFail (some "PMC100") none (Or.inl rfl)

/-- C1 counterexample: with a provider that raises (so the embedding
comes back empty) and an empty store, `search "spaceflight"` does not
fail with a distinct condition: it proceeds to the vector-store query
with the empty vector and returns the very outcome of a successful
search with zero matches. -/
theorem C1_empty_embedding_not_distinguished :
    search envFail (some "spaceflight") =
      (SearchOutcome.results [],
       [Effect.embedCall "spaceflight",
        Effect.vectorQuery "space_biology_research_papers" [],
        Effect.classLookup []]) ∧
    (search envFail (some "spaceflight")).1 =
      (search envNoMatch (some "spaceflight")).1 := by
  decide

/-- C1 amended: when the embedding comes back empty because the provider
raised, `search` does not fail with an `EmbeddingUnavailable` condition:
it proceeds to the vector-store similarity query with the empty vector
and returns an ordinary results outcome. -/
theorem C1_search_proceeds_on_empty_embedding (env : Env) (q m : String)
    (hq : q ≠ "") (hs : pyStrip q ≠ "") (hkey : env.apiKeySet = true)
    (herr : env.provider (pyStrip q) = ProviderOutcome.err m) :
    Effect.vectorQuery "space_biology_research_papers" [] ∈ (search env (some q)).2 ∧
    ∃ data, (search env (some q)).1 = SearchOutcome.results data := by
  have hge := generate_embeddings_err env.provider q m hs herr
  simp only [search]
  rw [if_neg hq, hkey, hge]
  refine ⟨?_, ⟨_, rfl⟩⟩
  simp

/-- C1 amended witness. -/
theorem C1_search_proceeds_on_empty_embedding_witness :
    Effect.vectorQuery "space_biology_research_papers" [] ∈
      (search envFail (some "spaceflight")).2 ∧
    ∃ data, (search envFail (some "spaceflight")).1 = SearchOutcome.results data :=
  C1_search_proceeds_on_empty_embedding envFail "spaceflight" "boom"
    (by decide) (by decide) rfl rfl

/-- C2: routing is a pure function of the id string: whatever the two
(independently chosen) environments hold, both the detail resolver and
the summary orchestrator point-look-up in the papers collection iff the
id's first three characters are `PMC`, and in the experiments collection
otherwise. -/
theorem C2_routing_pure (env env2 : Env) (doc_id q : String)
    (hid : doc_id ≠ "") (hq : q ≠ "") :
    lookupCollection (get_node_details env doc_id).2 =
      some (if doc_id.take 3 = "PMC" then "space_biology_research_papers"
            else "osdr_experiments") ∧
    lookupCollection (get_summary env2 (some doc_id) (some q)).2 =
      some (if doc_id.take 3 = "PMC" then "space_biology_research_papers"
            else "osdr_experiments") := by
  constructor
  · unfold get_node_details
    rw [if_neg hid]
    rcases hf : env.findOne (if doc_id.take 3 = "PMC" then "space_biology_research_papers"
        else "osdr_experiments") doc_id with _ | response
    · simp only [hf, lookupCollection]
    · simp only [hf]
      rcases hg : generate_embeddings env.apiKeySet env.provider response.document
        with ⟨e, tr⟩
      cases e <;> simp only [hg, lookupCollection]
  · have hcond : ¬(pyStr (some doc_id) = "" ∨ some q = none ∨ some q = some "") := by
      rintro (h | h | h)
      · exact hid h
      · exact Option.noConfusion h
      · exact hq (Option.some.inj h)
    unfold get_summary
    rw [if_neg hcond]
    simp only [pyStr]
    rcases hf : env2.findOne (if doc_id.take 3 = "PMC" then "space_biology_research_papers"
        else "osdr_experiments") doc_id with _ | response
    · simp only [hf, lookupCollection]
    · simp only [hf, lookupCollection]

/-- C2 witness. -/
theorem C2_routing_pure_witness :
    lookupCollection (get_node_details envFail "OSD-42").2 =
      some (if "OSD-42".take 3 = "PMC" then "space_biology_research_papers"
            else "osdr_experiments") ∧
    lookupCollection (get_summary envFail (some "OSD-42") (some "mice")).2 =
      some (if "OSD-42".take 3 = "PMC" then "space_biology_research_papers"
            else "osdr_experiments") :=
  C2_routing_pure envFail envFail "OSD-42" "mice" (by decide) (by decide)

/-- C6: when the routed point lookup misses, `get_summary` returns the
404 not-found outcome and its trace contains no generator call. -/
theorem C6_not_found_no_generator (env : Env) (doc_id q : String)
    (hid : doc_id ≠ "") (hq : q ≠ "")
    (hmiss : env.findOne (if doc_id.take 3 = "PMC" then "space_biology_research_papers"
                          else "osdr_experiments") doc_id = none) :
    (get_summary env (some doc_id) (some q)).1 = SummaryOutcome.notFound ∧
    ∀ p, Effect.generatorCall p ∉ (get_summary env (some doc_id) (some q)).2 := by
  have hcond : ¬(pyStr (some doc_id) = "" ∨ some q = none ∨ some q = some "") := by
    rintro (h | h | h)
    · exact hid h
    · exact Option.noConfusion h
    · exact hq (Option.some.inj h)
  unfold get_summary
  rw [if_neg hcond]
  simp only [pyStr]
  simp [hmiss]

/-- C6 witness. -/
theorem C6_not_found_no_generator_witness :
    (get_summary envFail (some "PMC999") (some "effects of microgravity")).1 =
      SummaryOutcome.notFound ∧
    ∀ p, Effect.generatorCall p ∉
      (get_summary envFail (some "PMC999") (some "effects of microgravity")).2 :=
  C6_not_found_no_generator envFail "PMC999" "effects of microgravity"
    (by decide) (by decide) rfl

/-- C7 counterexample: a hit whose title has no classification record is
zipped with the empty dict `{}` (the Python default in
`classification_map.get(doc_id, {})`), not with an empty list. -/
theorem C7_absent_classification_is_dict :
    (search envHit (some "bone density")).1 =
      SearchOutcome.results [(doc1, JVal.dict [])] ∧
    JVal.dict [] ≠ JVal.arr [] := by
  decide

/-- C7 amended: for every non-empty query (with the API key set), search
returns the hits in exactly the vector store's order — never re-sorted —
each zipped with its classification, defaulting to the empty dict when no
record matches the hit's title. -/
theorem C7_zip_preserves_store_order (env : Env) (q : String)
    (hq : q ≠ "") (hkey : env.apiKeySet = true) :
    ∃ emb data, (search env (some q)).1 = SearchOutcome.results data ∧
      data.map Prod.fst = env.vectorSearch "space_biology_research_papers" emb ∧
      ∀ pr ∈ data, pr.2 =
        (classificationMap
          (env.classFind ((env.vectorSearch "space_biology_research_papers" emb).map
            (fun d => d.title))) pr.1.title).getD (JVal.dict []) := by
  obtain ⟨v, tr, hge⟩ := generate_embeddings_ok env.provider q
  simp only [search]
  rw [if_neg hq, hkey, hge]
  refine ⟨v, _, rfl, ?_, ?_⟩
  · simp [Function.comp_def]
  · intro pr hpr
    simp only [List.mem_map] at hpr
    obtain ⟨doc, _, rfl⟩ := hpr
    rfl

/-- C7 amended witness. -/
theorem C7_zip_preserves_store_order_witness :
    ∃ emb data, (search envHit (some "bone density")).1 = SearchOutcome.results data ∧
      data.map Prod.fst = envHit.vectorSearch "space_biology_research_papers" emb ∧
      ∀ pr ∈ data, pr.2 =
        (classificationMap
          (envHit.classFind ((envHit.vectorSearch "space_biology_research_papers" emb).map
            (fun d => d.title))) pr.1.title).getD (JVal.dict []) :=
  C7_zip_preserves_store_order envHit "bone density" (by decide) rfl

/-- C8: when the point lookup finds the document, `get_node_details`
embeds the document's own canonical text (the embed call carries exactly
that text, stripped — not the user query), runs the similarity query
against both collections with that embedding, and returns the papers
results first, then the experiments results, each sub-list verbatim. -/
theorem C8_more_like_this (env : Env) (doc_id : String) (doc : Doc)
    (hid : doc_id ≠ "") (hkey : env.apiKeySet = true)
    (hfound : env.findOne (if doc_id.take 3 = "PMC" then "space_biology_research_papers"
                           else "osdr_experiments") doc_id = some doc) :
    ∃ emb tr,
      generate_embeddings true env.provider doc.document = (Except.ok emb, tr) ∧
      (get_node_details env doc_id).1 =
        NodeOutcome.data (env.vectorSearch "space_biology_research_papers" emb ++
                          env.vectorSearch "osdr_experiments" emb) ∧
      (pyStrip doc.document ≠ "" →
        Effect.embedCall (pyStrip doc.document) ∈ (get_node_details env doc_id).2) := by
  by_cases hb : pyStrip doc.document = ""
  · have hge := generate_embeddings_blank true env.provider doc.document hb
    refine ⟨[], [], hge, ?_, fun hne => absurd hb hne⟩
    unfold get_node_details
    rw [if_neg hid]
    simp only [hfound, hkey, hge]
  · obtain ⟨v, hge⟩ := generate_embeddings_trace env.provider doc.document hb
    refine ⟨v, _, hge, ?_, fun _ => ?_⟩
    · unfold get_node_details
      rw [if_neg hid]
      simp only [hfound, hkey, hge]
    · unfold get_node_details
      rw [if_neg hid]
      simp only [hfound, hkey, hge]
      simp

/-- C8 witness. -/
theorem C8_more_like_this_witness :
    ∃ emb tr,
      generate_embeddings true envHit.provider doc1.document = (Except.ok emb, tr) ∧
      (get_node_details envHit "PMC100").1 =
        NodeOutcome.data (envHit.vectorSearch "space_biology_research_papers" emb ++
                          envHit.vectorSearch "osdr_experiments" emb) ∧
      (pyStrip doc1.document ≠ "" →
        Effect.embedCall (pyStrip doc1.document) ∈ (get_node_details envHit "PMC100").2) :=
  C8_more_like_this envHit "PMC100" doc1 (by decide) rfl (by decide)

end Gravitas
